import Mathlib

/-!
Verification of the nostd_cow crate: a no-std clone-on-write container
`NoStdCow` with two variants, Borrowed holding a reference and Owned
holding a value, plus conversions to the allocator-backed `Cow`.

Modelling conventions.  A Rust shared reference is modelled as a `Ref`
carrying an address and the pointed-to value, so that pointer identity is
expressible.  The `Borrow` capability is a parameter `borrowT : T -> B`
giving the borrowed projection of an owned value, and `Clone` is a
parameter `cloneT : T -> T`.  Operations that in Rust call `clone` are
instrumented with a `Nat` counting how many times `clone` was invoked, so
that claims about duplication are observable.  The `unreachable!` branch of
`to_mut` is modelled by an `Option` result, `none` meaning the panic.
-/

/-- A Rust shared reference to a value of type `beta`: an address together
with the pointed-to value.  Address equality models pointer equality. -/
structure Ref (beta : Type) where
  addr : Nat
  val : beta
  deriving DecidableEq, Repr

/-- The NoStdCow enum from src/lib.rs: either a borrowed reference to a
value of the borrowed kind, or an owned value of the owned kind. -/
inductive NoStdCow (tau beta : Type) where
  | Borrowed (r : Ref beta)
  | Owned (v : tau)
  deriving DecidableEq, Repr

/-- The RefCow type alias from src/lib.rs: the two type parameters of
NoStdCow coincide. -/
abbrev RefCow (tau : Type) := NoStdCow tau tau

namespace NoStdCow

/-- The result of the Deref implementation: the returned reference is
either the stored external reference itself, or a reference into the
owned payload of the container holding the borrowed projection. -/
inductive BRef (beta : Type) where
  | ext (r : Ref beta)
  | intern (b : beta)
  deriving DecidableEq, Repr

/-- The value read through a dereference result. -/
def BRef.value : BRef beta → beta
  | .ext r => r.val
  | .intern b => b

/-- The Deref implementation from src/lib.rs: the Borrowed arm returns the
stored reference unchanged, the Owned arm returns the borrowed projection
of the owned value. -/
def deref (borrowT : tau → beta) : NoStdCow tau beta → BRef beta
  | .Borrowed b => .ext b
  | .Owned v => .intern (borrowT v)

/-- The is_borrowed predicate from src/lib.rs. -/
def is_borrowed : NoStdCow tau beta → Bool
  | .Borrowed _ => true
  | .Owned _ => false

/-- The is_owned predicate from src/lib.rs. -/
def is_owned : NoStdCow tau beta → Bool
  | .Borrowed _ => false
  | .Owned _ => true

/-- The to_mut method from src/lib.rs, on RefCow where the two type
parameters coincide.  Returns the value behind the returned mutable
reference, the container state after the call, and the number of clone
calls performed; `none` models reaching the `unreachable!` branch.  The
Borrowed arm assigns `Owned (clone of the referent)` to the container and
then rematches on the new state exactly as the source does. -/
def to_mut (cloneT : tau → tau) : RefCow tau → Option (tau × RefCow tau × Nat)
  | .Owned v => some (v, .Owned v, 0)
  | .Borrowed r =>
      let s : RefCow tau := .Owned (cloneT r.val)
      match s with
      | .Borrowed _ => none
      | .Owned v => some (v, s, 1)

/-- The into_owned method from src/lib.rs: returns the extracted owned
value together with the number of clone calls performed. -/
def into_owned (cloneT : tau → tau) : RefCow tau → tau × Nat
  | .Owned v => (v, 0)
  | .Borrowed r => (cloneT r.val, 1)

/-- The derived Clone implementation: cloning the enum clones each field;
a shared reference is cloned by copying the reference itself, an owned
value by the owned kind clone. -/
def clone (cloneT : tau → tau) : NoStdCow tau beta → NoStdCow tau beta
  | .Borrowed r => .Borrowed r
  | .Owned v => .Owned (cloneT v)

/-- The Default implementation from src/lib.rs: Owned of the owned kind
default value. -/
def defaultCow (defT : tau) : NoStdCow tau beta := .Owned defT

/-- The From implementation for references from src/lib.rs: wraps the
reference as Borrowed. -/
def from_ref (r : Ref beta) : NoStdCow tau beta := .Borrowed r

/-- The derived PartialEq implementation: equal discriminants are required
first; the Borrowed fields are compared through the reference equality of
the borrowed kind (which compares the referents), the Owned fields through
the owned kind equality. -/
def beqCow (eqB : beta → beta → Bool) (eqT : tau → tau → Bool) :
    NoStdCow tau beta → NoStdCow tau beta → Bool
  | .Borrowed r1, .Borrowed r2 => eqB r1.val r2.val
  | .Owned v1, .Owned v2 => eqT v1 v2
  | _, _ => false

/-- The derived Ord implementation: discriminants are compared first, with
the Borrowed variant (declared first) ordering below the Owned variant;
equal discriminants fall through to the field comparison. -/
def cmpCow (cmpB : beta → beta → Ordering) (cmpT : tau → tau → Ordering) :
    NoStdCow tau beta → NoStdCow tau beta → Ordering
  | .Borrowed r1, .Borrowed r2 => cmpB r1.val r2.val
  | .Owned v1, .Owned v2 => cmpT v1 v2
  | .Borrowed _, .Owned _ => .lt
  | .Owned _, .Borrowed _ => .gt

/-- The derived Hash implementation: the discriminant is written to the
hasher first, then the field; the stream of written words is modelled as a
list. -/
def hashCow (hB : beta → List Nat) (hT : tau → List Nat) :
    NoStdCow tau beta → List Nat
  | .Borrowed r => 0 :: hB r.val
  | .Owned v => 1 :: hT v

/-- The to_mut method instrumented with a fallible clone: `cloneF`
returning `none` models the owned kind clone panicking.  The result is the
container state observable after the call together with the returned value
when the call completes.  In the Borrowed arm the new Owned state is fully
constructed from the clone result before the container is overwritten, so
a clone failure leaves the original state in place. -/
def to_mutF (cloneF : tau → Option tau) :
    RefCow tau → RefCow tau × Option tau
  | .Owned v => (.Owned v, some v)
  | .Borrowed r =>
      match cloneF r.val with
      | none => (.Borrowed r, none)
      | some c => (.Owned c, some c)

end NoStdCow

/-- The allocator-backed Cow enum from alloc, as used by
src/alloc_impls.rs: omega stands for the ToOwned owned type of the
borrowed kind. -/
inductive Cow (omega beta : Type) where
  | Borrowed (r : Ref beta)
  | Owned (o : omega)
  deriving DecidableEq, Repr

namespace NoStdCow

/-- The into_std_cow method from src/alloc_impls.rs: re-tags each variant
into the allocator-backed Cow, moving the payload unchanged. -/
def into_std_cow : NoStdCow omega beta → Cow omega beta
  | .Borrowed b => .Borrowed b
  | .Owned o => .Owned o

/-- The from_std_cow method from src/alloc_impls.rs: re-tags each variant
of the allocator-backed Cow back, moving the payload unchanged. -/
def from_std_cow : Cow omega beta → NoStdCow omega beta
  | .Borrowed b => .Borrowed b
  | .Owned o => .Owned o

end NoStdCow

section Claims

open NoStdCow

/-- C1 counterexample: with the owned and borrowed kinds both Nat, the
identity borrow projection and the standard Nat equality, ordering and
hashing on both kinds, the container Borrowed of a reference to 5 and the
container Owned 5 hold the same logical value, yet the derived relations
report them unequal, ordered strictly (Borrowed below Owned), and hashed
differently, because the derived implementations compare the variant tag
first. -/
theorem c1_counterexample :
    (NoStdCow.deref (id : Nat → Nat)
      ((NoStdCow.Borrowed ⟨0, 5⟩ : NoStdCow Nat Nat))).value = 5 ∧
    NoStdCow.beqCow (fun a b : Nat => a == b) (fun a b : Nat => a == b)
      (NoStdCow.Borrowed ⟨0, 5⟩) (NoStdCow.Owned 5) = false ∧
    NoStdCow.cmpCow (compare : Nat → Nat → Ordering) compare
      (NoStdCow.Borrowed ⟨0, 5⟩) (NoStdCow.Owned 5) = .lt ∧
    NoStdCow.hashCow (fun b : Nat => [b]) (fun t : Nat => [t])
      (NoStdCow.Borrowed ⟨0, 5⟩) ≠
      NoStdCow.hashCow (fun b : Nat => [b]) (fun t : Nat => [t])
      (NoStdCow.Owned 5) := by
  refine ⟨rfl, rfl, ?_, ?_⟩
  · decide
  · decide

/-- C1 amended: the derived equality, ordering and hashing compare the
variant tag first.  Two Borrowed containers compare and hash through the
referenced values and two Owned containers through the owned values, but
a Borrowed and an Owned container are never equal, the Borrowed one
orders strictly below the Owned one, and their hash streams differ in the
leading discriminant, whatever data they hold. -/
theorem c1_derived_relations (eqB : beta → beta → Bool)
    (eqT : tau → tau → Bool)
    (cmpB : beta → beta → Ordering) (cmpT : tau → tau → Ordering)
    (hB : beta → List Nat) (hT : tau → List Nat)
    (r r2 : Ref beta) (v v2 : tau) :
    NoStdCow.beqCow eqB eqT (.Borrowed r) (.Owned v) = false ∧
    NoStdCow.beqCow eqB eqT (.Owned v) (.Borrowed r) = false ∧
    NoStdCow.beqCow eqB eqT (.Borrowed r) (.Borrowed r2) = eqB r.val r2.val ∧
    NoStdCow.beqCow eqB eqT (.Owned v) (.Owned v2) = eqT v v2 ∧
    NoStdCow.cmpCow cmpB cmpT (.Borrowed r) (.Owned v) = .lt ∧
    NoStdCow.cmpCow cmpB cmpT (.Owned v) (.Borrowed r) = .gt ∧
    NoStdCow.cmpCow cmpB cmpT (.Borrowed r) (.Borrowed r2) = cmpB r.val r2.val ∧
    NoStdCow.cmpCow cmpB cmpT (.Owned v) (.Owned v2) = cmpT v v2 ∧
    NoStdCow.hashCow hB hT (.Borrowed r) ≠ NoStdCow.hashCow hB hT (.Owned v) := by
  refine ⟨rfl, rfl, rfl, rfl, rfl, rfl, rfl, rfl, ?_⟩
  simp [NoStdCow.hashCow]

/-- C2: to_mut on an Owned container returns the held value itself with
the container unchanged and zero clone calls; on a Borrowed container it
returns the clone of the referenced data, leaves the container Owned of
that clone after exactly one clone call, and in both cases the container
is not Borrowed afterwards. -/
theorem c2_to_mut_contract (cloneT : tau → tau) (v : tau) (r : Ref tau) :
    NoStdCow.to_mut cloneT (.Owned v) = some (v, .Owned v, 0) ∧
    NoStdCow.to_mut cloneT (.Borrowed r) =
      some (cloneT r.val, .Owned (cloneT r.val), 1) ∧
    (NoStdCow.to_mut cloneT (.Owned v)).elim False
      (fun p => p.2.1.is_borrowed = false) ∧
    (NoStdCow.to_mut cloneT (.Borrowed r)).elim False
      (fun p => p.2.1.is_borrowed = false) := by
  refine ⟨rfl, rfl, ?_, ?_⟩ <;> simp [NoStdCow.to_mut, NoStdCow.is_borrowed]

/-- C3: converting a container to the allocator-backed Cow and back is
the identity in both directions; Borrowed maps to Cow.Borrowed of the
identical reference (same address) and Owned to Cow.Owned of the same
value, with no data transformation. -/
theorem c3_std_cow_roundtrip (c : NoStdCow omega beta) (w : Cow omega beta) :
    NoStdCow.from_std_cow (NoStdCow.into_std_cow c) = c ∧
    NoStdCow.into_std_cow (NoStdCow.from_std_cow w) = w := by
  constructor
  · cases c <;> rfl
  · cases w <;> rfl

/-- C4: to_mut never reaches its unreachable branch: it returns a value
for every container and every clone function, and no other operation of
the component has a failure path. -/
theorem c4_no_runtime_failure (cloneT : tau → tau) (c : RefCow tau) :
    (NoStdCow.to_mut cloneT c).isSome = true := by
  cases c <;> rfl

/-- C5: the container built from a reference r dereferences to exactly
the stored reference r, with is_borrowed true and is_owned false; the
container Owned v dereferences to a reference into its own payload whose
value is the borrowed projection of v, with is_owned true.  Dereference
is a pure read on the container and touches no state. -/
theorem c5_deref_contract (borrowT : tau → beta) (r : Ref beta) (v : tau) :
    NoStdCow.deref borrowT (NoStdCow.from_ref r : NoStdCow tau beta) = .ext r ∧
    (NoStdCow.from_ref r : NoStdCow tau beta).is_borrowed = true ∧
    (NoStdCow.from_ref r : NoStdCow tau beta).is_owned = false ∧
    NoStdCow.deref borrowT (.Owned v) = .intern (borrowT v) ∧
    (NoStdCow.deref borrowT (.Owned v)).value = borrowT v ∧
    (NoStdCow.Owned v : NoStdCow tau beta).is_owned = true :=
  ⟨rfl, rfl, rfl, rfl, rfl, rfl⟩

/-- C6: to_mut is idempotent: whatever container the first call ran on,
the second call returns the same value and the same state as the first
and performs zero clone calls. -/
theorem c6_to_mut_idempotent (cloneT : tau → tau) (c c1 : RefCow tau)
    (v : tau) (n : Nat)
    (h : NoStdCow.to_mut cloneT c = some (v, c1, n)) :
    NoStdCow.to_mut cloneT c1 = some (v, c1, 0) := by
  cases c with
  | Owned w =>
      simp only [NoStdCow.to_mut, Option.some.injEq, Prod.mk.injEq] at h
      obtain ⟨hv, hc, -⟩ := h
      subst hv
      subst hc
      rfl
  | Borrowed r =>
      simp only [NoStdCow.to_mut, Option.some.injEq, Prod.mk.injEq] at h
      obtain ⟨hv, hc, -⟩ := h
      subst hv
      subst hc
      rfl

/-- Witness for C6 at a concrete input: applying the theorem to the
first call on a Borrowed container over Nat. -/
theorem c6_to_mut_idempotent_witness :
    NoStdCow.to_mut (id : Nat → Nat) (NoStdCow.Owned 3) =
      some (3, NoStdCow.Owned 3, 0) :=
  c6_to_mut_idempotent id (NoStdCow.Borrowed ⟨0, 3⟩) (NoStdCow.Owned 3) 3 1 rfl

/-- C7: into_owned on an Owned container returns the held value itself
with zero clone calls; on a Borrowed container it returns the clone of
the referenced data after exactly one clone call. -/
theorem c7_into_owned_contract (cloneT : tau → tau) (v : tau) (r : Ref tau) :
    NoStdCow.into_owned cloneT (.Owned v) = (v, 0) ∧
    NoStdCow.into_owned cloneT (.Borrowed r) = (cloneT r.val, 1) :=
  ⟨rfl, rfl⟩

/-- C8: for a clone that returns an equal value, into_owned of a
container yields the same value as calling to_mut on a clone of the
container and reading the returned reference. -/
theorem c8_into_owned_agrees_to_mut (cloneT : tau → tau)
    (hclone : ∀ x, cloneT x = x) (c : RefCow tau) :
    (NoStdCow.to_mut cloneT (NoStdCow.clone cloneT c)).map (fun p => p.1) =
      some (NoStdCow.into_owned cloneT c).1 := by
  cases c <;>
    simp [NoStdCow.to_mut, NoStdCow.clone, NoStdCow.into_owned, hclone]

/-- Witness for C8 at a concrete input: a Borrowed container over Nat
with the identity clone. -/
theorem c8_into_owned_agrees_to_mut_witness :
    (NoStdCow.to_mut (id : Nat → Nat)
      (NoStdCow.clone id (NoStdCow.Borrowed ⟨0, 7⟩))).map (fun p => p.1) =
      some (NoStdCow.into_owned (id : Nat → Nat)
        (NoStdCow.Borrowed ⟨0, 7⟩)).1 :=
  c8_into_owned_agrees_to_mut id (fun _ => rfl) (NoStdCow.Borrowed ⟨0, 7⟩)

/-- C9: if the clone of the referenced data fails during to_mut on a
Borrowed container, the container is left exactly in its original
Borrowed state holding the original reference, because the new Owned
state is fully constructed before the container is overwritten. -/
theorem c9_to_mut_atomic (cloneF : tau → Option tau) (r : Ref tau)
    (h : cloneF r.val = none) :
    NoStdCow.to_mutF cloneF (.Borrowed r) = (.Borrowed r, none) := by
  simp [NoStdCow.to_mutF, h]

/-- Witness for C9 at a concrete input: an always-failing clone on a
Borrowed container over Nat. -/
theorem c9_to_mut_atomic_witness :
    NoStdCow.to_mutF (fun _ : Nat => (none : Option Nat))
      (NoStdCow.Borrowed ⟨0, 1⟩) =
      (NoStdCow.Borrowed ⟨0, 1⟩, none) :=
  c9_to_mut_atomic (fun _ => none) ⟨0, 1⟩ rfl

/-- C10: the derived clone of the container preserves the active
variant: a Borrowed container clones to Borrowed of the identical
reference for every clone function (so the referenced data is never
duplicated), and an Owned container clones to Owned of the clone of its
value. -/
theorem c10_clone_preserves_variant (cloneT : tau → tau) (r : Ref beta)
    (v : tau) :
    NoStdCow.clone cloneT (NoStdCow.Borrowed r : NoStdCow tau beta) =
      .Borrowed r ∧
    NoStdCow.clone cloneT (NoStdCow.Owned v : NoStdCow tau beta) =
      .Owned (cloneT v) :=
  ⟨rfl, rfl⟩

end Claims
